import Mathlib

/-!
Shallow embedding of the GraphQL library catalog service (src/index.js).

The three Mongo collections (Authors, Books, Users) are modelled as lists
inside a `Store`; Mongo ObjectIds are opaque strings assigned from a
counter.  Each resolver of src/index.js is translated into a pure function
over `Store`; a resolver that can throw returns `Except`.  Event
publication (`pubsub.publish`) is modelled by returning the list of events
the call publishes.
-/

/-- Persisted Author record: `_id`, required `name`, optional `born`. -/
structure Author where
  oid : String
  name : String
  born : Option Int
deriving Repr, DecidableEq

/-- Persisted Book record: the `author` field stores the referenced
Author's id (a non-owning reference), exactly as Mongo stores the ref. -/
structure Book where
  oid : String
  title : String
  published : Int
  author : String
  genres : List String
deriving Repr, DecidableEq

/-- Persisted User record; `passwordHash` is the opaque bcrypt digest. -/
structure User where
  oid : String
  username : String
  favoriteGenre : String
  passwordHash : String
deriving Repr, DecidableEq

/-- The document store: three collections plus the id-assignment counter. -/
structure Store where
  authors : List Author
  books : List Book
  users : List User
  nextId : Nat
deriving Repr, DecidableEq

/-- Fresh ObjectId assigned by the store on insert. -/
def mkId (n : Nat) : String := "oid" ++ toString n

/-- JavaScript truthiness of an optional string argument: an absent
argument and the empty string are both falsy (`if(!args.author)`). -/
def truthy : Option String → Bool
  | none => false
  | some s => !(s == "")

/-- The `params` object built by `Query.allBooks`: an optional equality
filter on the stored `author` reference and an optional
`genres: { $all: [g] }` membership filter. -/
structure BookQueryParams where
  author : Option String := none
  genresAll : Option String := none
deriving Repr

/-- Mongo matching of one Book document against `params`: every set field
must match; `$all` with a single tag is exact membership in `genres`. -/
def matchesParams (p : BookQueryParams) (b : Book) : Bool :=
  (match p.author with
   | none => true
   | some a => b.author == a)
  &&
  (match p.genresAll with
   | none => true
   | some g => b.genres.contains g)

/-- Resolver `Query.allBooks`: with both arguments falsy it returns every Book;
otherwise it builds `params` from the truthy arguments and filters. -/
def allBooks (s : Store) (author genre : Option String) : List Book :=
  if !(truthy author) && !(truthy genre) then s.books
  else
    let p0 : BookQueryParams := {}
    let p1 := if truthy author then { p0 with author := author } else p0
    let p2 := if truthy genre then { p1 with genresAll := genre } else p1
    s.books.filter (fun b => matchesParams p2 b)

/-- Resolver `Query.bookCount`: the schema declares an optional `name` argument but
the resolver `() => Book.collection.countDocuments()` ignores its
arguments and counts every Book document. -/
def bookCountQuery (s : Store) (_name : Option String) : Nat :=
  s.books.length

/-- Lookup by id, `Author.findById`. -/
def findAuthorById (s : Store) (oid : String) : Option Author :=
  s.authors.find? (fun a => a.oid == oid)

/-- Field resolver `Author.bookCount`: recomputed on every call by
scanning the Book collection for `{ author: root.id }`. -/
def authorBookCount (s : Store) (rootId : String) : Nat :=
  (s.books.filter (fun b => b.author == rootId)).length

/-- Outcome of resolving a Book's `author` field when the reference is
dangling.  `nullDereference` models the JavaScript TypeError thrown by
`author.name` when `Author.findById` returned null (the code's actual
behavior).  `danglingReference` is modelled from the spec: the distinct
clean DanglingReference condition section 4.2 requires; the code never
produces it. -/
inductive AuthorViewError where
  | nullDereference : AuthorViewError
  | danglingReference : AuthorViewError
deriving Repr, DecidableEq

/-- The object literal returned by the `Book.author` resolver.  Its
`bookCount` key is `root.bookCount`, which is undefined on a Book
document, so it is omitted here; GraphQL then invokes the
`Author.bookCount` field resolver on this object. -/
structure AuthorStub where
  name : String
  born : Option Int
  id : String
deriving Repr, DecidableEq

/-- Resolver `Book.author`: `findById(root.author)` then field accesses on
the result.  When the lookup returns null, `author.name` throws. -/
def bookAuthorResolver (s : Store) (b : Book) : Except AuthorViewError AuthorStub :=
  match findAuthorById s b.author with
  | none => Except.error AuthorViewError.nullDereference
  | some a => Except.ok { name := a.name, born := a.born, id := b.author }

/-- Fully materialized Author view: what a query reading a Book's
`author` field (including `bookCount`) observes. -/
structure AuthorView where
  name : String
  born : Option Int
  bookCount : Nat
  id : String
deriving Repr, DecidableEq

/-- The composition GraphQL performs when a Book's `author` field and its
`bookCount` subfield are both selected: run the `Book.author` resolver,
then the `Author.bookCount` field resolver on the returned object (whose
`id` is the book's stored author reference). -/
def resolveBookAuthorView (s : Store) (b : Book) : Except AuthorViewError AuthorView :=
  match bookAuthorResolver s b with
  | Except.error e => Except.error e
  | Except.ok stub =>
      Except.ok { name := stub.name, born := stub.born,
                  bookCount := authorBookCount s stub.id, id := stub.id }

/-- Arguments of `Mutation.addBook`. -/
structure AddBookArgs where
  title : String
  author : String
  published : Int
  genres : List String
deriving Repr, DecidableEq

/-- The distinct throw sites of `Mutation.addBook`, one constructor per
`UserInputError` the resolver raises.  `missingAuthHeader` is the
unauthenticated failure (message 'missing authorization header', no
invalidArgs); the two validation errors and the save failure carry the
offending arguments as `invalidArgs`. -/
inductive AddBookError where
  | missingAuthHeader : AddBookError
  | titleTooShort (invalidArgs : AddBookArgs) : AddBookError
  | authorNameTooShort (invalidArgs : AddBookArgs) : AddBookError
  | bookSaveFailed (msg : String) (invalidArgs : AddBookArgs) : AddBookError
deriving Repr, DecidableEq

/-- An event published on `pubsub`; the source defines exactly one kind,
`BOOK_ADDED`, carrying the new Book. -/
inductive Event where
  | bookAdded (book : Book) : Event
deriving Repr, DecidableEq

/-- What one `addBook` call leaves behind: the returned value or thrown
error, the store after the call, and the events it published. -/
structure AddBookResult where
  result : Except AddBookError Book
  store : Store
  events : List Event
deriving Repr

/-- The tail of `Mutation.addBook` after the author id is settled:
`book.save()` inside try/catch, then `pubsub.publish` and return.
`bookSaveFailure` models whether the underlying store rejects the insert
(the caught error's message); the author insert made before this point is
not rolled back, matching the source's lack of a transaction. -/
def addBookSave (s : Store) (authorId : String) (args : AddBookArgs)
    (bookSaveFailure : Option String) : AddBookResult :=
  match bookSaveFailure with
  | some msg =>
      { result := Except.error (AddBookError.bookSaveFailed msg args),
        store := s, events := [] }
  | none =>
      let newBook : Book :=
        { oid := mkId s.nextId, title := args.title, published := args.published,
          author := authorId, genres := args.genres }
      { result := Except.ok newBook,
        store := { s with books := s.books ++ [newBook], nextId := s.nextId + 1 },
        events := [Event.bookAdded newBook] }

/-- Resolver `Mutation.addBook`: require `context.currentUser`; validate title and
author-name length (a falsy empty string also has length below the bound,
so the length test alone is faithful); find-or-create the Author by exact
name; then persist the Book and publish. -/
def addBook (s : Store) (currentUser : Option User) (args : AddBookArgs)
    (bookSaveFailure : Option String) : AddBookResult :=
  match currentUser with
  | none =>
      { result := Except.error AddBookError.missingAuthHeader, store := s, events := [] }
  | some _ =>
      if args.title.length < 2 then
        { result := Except.error (AddBookError.titleTooShort args), store := s, events := [] }
      else if args.author.length < 4 then
        { result := Except.error (AddBookError.authorNameTooShort args), store := s, events := [] }
      else
        match s.authors.find? (fun a => a.name == args.author) with
        | none =>
            let newAuthor : Author := { oid := mkId s.nextId, name := args.author, born := none }
            let s1 : Store :=
              { s with authors := s.authors ++ [newAuthor], nextId := s.nextId + 1 }
            addBookSave s1 newAuthor.oid args bookSaveFailure
        | some a => addBookSave s a.oid args bookSaveFailure

/-- Resolver `Mutation.editAuthor` throws only for a missing authenticated user
(message 'missing authorization header'); the update path is modelled as
always accepted by the store. -/
inductive EditAuthorError where
  | missingAuthHeader : EditAuthorError
deriving Repr, DecidableEq

/-- What one `editAuthor` call leaves behind. -/
structure EditAuthorResult where
  result : Except EditAuthorError (Option Author)
  store : Store
deriving Repr

/-- Resolver `Mutation.editAuthor`: require `context.currentUser`; look up the
Author by exact name; if absent return null with the store untouched;
otherwise `findByIdAndUpdate` with `{ name, born: setBornTo }` and return
the updated record. -/
def editAuthor (s : Store) (currentUser : Option User) (name : String)
    (setBornTo : Int) : EditAuthorResult :=
  match currentUser with
  | none => { result := Except.error EditAuthorError.missingAuthHeader, store := s }
  | some _ =>
      match s.authors.find? (fun a => a.name == name) with
      | none => { result := Except.ok none, store := s }
      | some a =>
          let updated : Author := { oid := a.oid, name := name, born := some setBornTo }
          let replaced := s.authors.map (fun x => if x.oid == a.oid then updated else x)
          { result := Except.ok (some updated),
            store := { s with authors := replaced } }

/-- The single error `Mutation.login` throws: `UserInputError('wrong
credentials')`, carrying no data, raised by both failure paths. -/
inductive LoginError where
  | wrongCredentials : LoginError
deriving Repr, DecidableEq

/-- The `Token` payload returned on successful login. -/
structure Token where
  value : String
deriving Repr, DecidableEq

/-- Resolver `Mutation.login`: look up the User by username;
`passwordCorrect = user === null ? false : bcrypt.compare(...)`; throw
unless both the user exists and the digest matches; otherwise sign
`{ username, id }`.  `hashCompare` and `sign` model the opaque bcrypt
comparison and jwt signing. -/
def login (hashCompare : String → String → Bool) (sign : String → String → String)
    (s : Store) (username password : String) : Except LoginError Token :=
  match s.users.find? (fun u => u.username == username) with
  | none => Except.error LoginError.wrongCredentials
  | some u =>
      if hashCompare password u.passwordHash then
        Except.ok { value := sign u.username u.oid }
      else Except.error LoginError.wrongCredentials

/-- Modelled from the spec: the PubSub delivery contract of section 4.6
(the fanout implementation lives in the apollo-server dependency, not in
src/).  There is no replay buffer: a subscriber who registered after
`alreadyPublished` events of the trace had been published receives only
the later events, each at most once, in order. -/
def deliveredTo (alreadyPublished : Nat) (trace : List Event) : List Event :=
  trace.drop alreadyPublished

/-- Empty store, as at first startup. -/
def c1Store : Store := { authors := [], books := [], users := [], nextId := 0 }

/-- An authenticated user placed in the request context. -/
def c1User : User :=
  { oid := "oidU", username := "alice", favoriteGenre := "fantasy", passwordHash := "h" }

/-- Valid addBook arguments with a previously unseen author name. -/
def c1Args : AddBookArgs :=
  { title := "Dune", author := "Frank Herbert", published := 1965, genres := ["scifi"] }

/-- A Book whose stored author reference matches no Author record. -/
def c2Book : Book :=
  { oid := "oid9", title := "Orphan", published := 2000, author := "oidGone", genres := [] }

/-- Store holding only the dangling Book. -/
def c2Store : Store := { authors := [], books := [c2Book], users := [], nextId := 10 }

/-- An Author record present in the store. -/
def c3Author : Author := { oid := "oidA", name := "Frank Herbert", born := some 1920 }

/-- A Book referencing `c3Author`. -/
def c3Book : Book :=
  { oid := "oidB", title := "Dune", published := 1965, author := "oidA", genres := ["scifi"] }

/-- Store where the Book's author reference resolves. -/
def c3Store : Store := { authors := [c3Author], books := [c3Book], users := [], nextId := 2 }

/-- addBook arguments whose title has length 1. -/
def c5Args : AddBookArgs :=
  { title := "X", author := "Frank Herbert", published := 1965, genres := [] }

/-- Store holding one User for the login scenarios. -/
def c6Store : Store := { authors := [], books := [], users := [c1User], nextId := 1 }

/-- A Book tagged only with the genre tag scifi. -/
def c7Book : Book :=
  { oid := "oid0", title := "Dune", published := 1965, author := "oidA", genres := ["scifi"] }

/-- Store holding only `c7Book`. -/
def c7Store : Store := { authors := [], books := [c7Book], users := [], nextId := 1 }

/-- Helper: a store-assigned ObjectId is never the empty string, so it is
always truthy as a filter argument. -/
theorem mkId_ne_empty (n : Nat) : mkId n ≠ "" := by
  unfold mkId
  intro h
  have h2 : ("oid" ++ toString n).length = 0 := by rw [h]; rfl
  rw [String.length_append] at h2
  have h3 : "oid".length = 3 := rfl
  omega

/-- Helper: with only a non-empty author argument, `allBooks` filters on
the stored author reference. -/
theorem allBooks_authorFilter (s : Store) (aid : String) (h : aid ≠ "") :
    allBooks s (some aid) none = s.books.filter (fun b => b.author == aid) := by
  simp [allBooks, truthy, h, matchesParams]

/-- Helper: with only a non-empty genre argument, `allBooks` keeps the
Books whose genre list contains that exact tag. -/
theorem allBooks_genreFilter (s : Store) (g : String) (h : g ≠ "") :
    allBooks s none (some g) = s.books.filter (fun b => b.genres.contains g) := by
  simp [allBooks, truthy, h, matchesParams]

/-- Helper: with both arguments non-empty, `allBooks` conjoins the two
filters. -/
theorem allBooks_bothFilters (s : Store) (a g : String) (ha : a ≠ "") (hg : g ≠ "") :
    allBooks s (some a) (some g)
      = s.books.filter (fun b => b.author == a && b.genres.contains g) := by
  simp [allBooks, truthy, ha, hg, matchesParams]

/-- C1 (counterexample): on an empty store an authenticated `addBook` for
author Frank Herbert succeeds and creates the Book, yet a subsequent
`allBooks` call with the author argument set to that name returns the
empty list — the resolver compares the argument against the stored author
reference (an ObjectId), not the Author's name. -/
theorem addBook_listBooks_byName_counterexample :
    (addBook c1Store (some c1User) c1Args none).result
      = Except.ok { oid := "oid1", title := "Dune", published := 1965,
                    author := "oid0", genres := ["scifi"] }
    ∧ allBooks (addBook c1Store (some c1User) c1Args none).store (some "Frank Herbert") none
      = [] :=
  ⟨rfl, rfl⟩

/-- C1 (amended): for every valid `addBook` call by an authenticated
caller with an author name not present in the Author collection, exactly
one new Author record (that name, birth year unset) and exactly one new
Book record (referencing that Author's identity) are created, the User
collection is untouched, and a subsequent `allBooks` call with the author
argument set to that Author's identity (not its name) returns exactly
that Book, provided no pre-existing Book already carries the freshly
assigned identity. -/
theorem addBook_newAuthor_creates_and_listable_by_id
    (s : Store) (u : User) (args : AddBookArgs)
    (htitle : 2 ≤ args.title.length) (hauthor : 4 ≤ args.author.length)
    (hunseen : s.authors.find? (fun a => a.name == args.author) = none)
    (hfresh : ∀ b ∈ s.books, b.author ≠ mkId s.nextId) :
    (addBook s (some u) args none).result
      = Except.ok { oid := mkId (s.nextId + 1), title := args.title,
                    published := args.published, author := mkId s.nextId,
                    genres := args.genres }
    ∧ (addBook s (some u) args none).store.authors
      = s.authors ++ [{ oid := mkId s.nextId, name := args.author, born := none }]
    ∧ (addBook s (some u) args none).store.books
      = s.books ++ [{ oid := mkId (s.nextId + 1), title := args.title,
                      published := args.published, author := mkId s.nextId,
                      genres := args.genres }]
    ∧ (addBook s (some u) args none).store.users = s.users
    ∧ allBooks (addBook s (some u) args none).store (some (mkId s.nextId)) none
      = [{ oid := mkId (s.nextId + 1), title := args.title,
           published := args.published, author := mkId s.nextId,
           genres := args.genres }] := by
  have ht : ¬ (args.title.length < 2) := Nat.not_lt.mpr htitle
  have ha : ¬ (args.author.length < 4) := Nat.not_lt.mpr hauthor
  have hred : addBook s (some u) args none
      = { result := Except.ok { oid := mkId (s.nextId + 1), title := args.title,
                                published := args.published, author := mkId s.nextId,
                                genres := args.genres },
          store := { authors := s.authors ++ [{ oid := mkId s.nextId, name := args.author,
                                                born := none }],
                     books := s.books ++ [{ oid := mkId (s.nextId + 1), title := args.title,
                                            published := args.published,
                                            author := mkId s.nextId, genres := args.genres }],
                     users := s.users, nextId := s.nextId + 1 + 1 },
          events := [Event.bookAdded { oid := mkId (s.nextId + 1), title := args.title,
                                       published := args.published, author := mkId s.nextId,
                                       genres := args.genres }] } := by
    simp only [addBook, if_neg ht, if_neg ha, hunseen, addBookSave]
  rw [hred]
  refine ⟨rfl, rfl, rfl, rfl, ?_⟩
  rw [allBooks_authorFilter _ _ (mkId_ne_empty s.nextId)]
  simp only [List.filter_append]
  have h1 : s.books.filter (fun b => b.author == mkId s.nextId) = [] := by
    rw [List.filter_eq_nil_iff]
    intro b hb
    simp [hfresh b hb]
  rw [h1]
  simp

/-- C1 (amended, witness): the concrete Dune scenario instantiates the
amended theorem — the hypotheses hold on the empty store and the new Book
is returned when filtering by the new Author's identity. -/
theorem addBook_newAuthor_witness :
    2 ≤ c1Args.title.length ∧
    allBooks (addBook c1Store (some c1User) c1Args none).store (some (mkId c1Store.nextId)) none
      = [{ oid := mkId (c1Store.nextId + 1), title := c1Args.title,
           published := c1Args.published, author := mkId c1Store.nextId,
           genres := c1Args.genres }] :=
  ⟨by decide,
   (addBook_newAuthor_creates_and_listable_by_id c1Store c1User c1Args (by decide)
     (by decide) rfl (by simp [c1Store])).2.2.2.2⟩

/-- C2 (code_bug evidence): resolving the author view of a Book whose
author reference matches no Author record ends in the null-dereference
crash (the JavaScript TypeError from `author.name`), which is not the
distinct clean DanglingReference error the spec requires. -/
theorem bookAuthor_dangling_crashes :
    resolveBookAuthorView c2Store c2Book = Except.error AuthorViewError.nullDereference
    ∧ AuthorViewError.nullDereference ≠ AuthorViewError.danglingReference :=
  ⟨rfl, by decide⟩

/-- C3: for every Book whose author reference resolves to an existing
Author, the materialized Author view carries that Author's name and birth
year, and its `bookCount` equals the number of Book records whose stored
author reference is that Author's identity. -/
theorem bookAuthor_fullyMaterialized (s : Store) (b : Book) (a : Author)
    (hfound : findAuthorById s b.author = some a) :
    resolveBookAuthorView s b
      = Except.ok { name := a.name, born := a.born,
                    bookCount := (s.books.filter (fun bk => bk.author == a.oid)).length,
                    id := a.oid } := by
  have hf : s.authors.find? (fun x => x.oid == b.author) = some a := hfound
  have hp := List.find?_some hf
  have heq : a.oid = b.author := by simpa using hp
  simp only [resolveBookAuthorView, bookAuthorResolver, hfound, authorBookCount]
  rw [← heq]

/-- C3 (witness): in the concrete one-author one-book store the resolved
view is fully materialized with book count 1. -/
theorem bookAuthor_fullyMaterialized_witness :
    resolveBookAuthorView c3Store c3Book
      = Except.ok { name := "Frank Herbert", born := some 1920, bookCount := 1, id := "oidA" } :=
  bookAuthor_fullyMaterialized c3Store c3Book c3Author rfl

/-- C4: for every store, every argument object and every store-failure
behavior, an `addBook` call whose context carries no authenticated user
fails with the unauthenticated error (the resolver's distinct
'missing authorization header' throw) and leaves the store — Author,
Book and User collections alike — unchanged, publishing nothing. -/
theorem addBook_unauthenticated (s : Store) (args : AddBookArgs) (sf : Option String) :
    addBook s none args sf
      = { result := Except.error AddBookError.missingAuthHeader, store := s, events := [] } :=
  rfl

/-- C5: for every `addBook` call by an authenticated caller whose title
has length strictly below 2, the call fails with the validation error
carrying the offending arguments, and the store is unchanged (no Author
or Book record is created). -/
theorem addBook_shortTitle (s : Store) (u : User) (args : AddBookArgs)
    (sf : Option String) (h : args.title.length < 2) :
    addBook s (some u) args sf
      = { result := Except.error (AddBookError.titleTooShort args), store := s, events := [] } := by
  simp [addBook, h]

/-- C5 (witness): the one-character title X is rejected on the empty
store with the arguments attached and no state change. -/
theorem addBook_shortTitle_witness :
    c5Args.title.length < 2 ∧
    addBook c1Store (some c1User) c5Args none
      = { result := Except.error (AddBookError.titleTooShort c5Args),
          store := c1Store, events := [] } :=
  ⟨by decide, addBook_shortTitle c1Store c1User c5Args none (by decide)⟩

/-- C6: for every store, hash comparison and signing function, a `login`
with an existing username whose password digest does not match and a
`login` with a nonexistent username both fail with the same
wrong-credentials error, which carries no data — the two failure causes
are indistinguishable to the caller. -/
theorem login_failure_indistinguishable
    (hashCompare : String → String → Bool) (sign : String → String → String)
    (s : Store) (u1 p1 u2 p2 : String) (user : User)
    (hfound : s.users.find? (fun x => x.username == u1) = some user)
    (hwrong : hashCompare p1 user.passwordHash = false)
    (habsent : s.users.find? (fun x => x.username == u2) = none) :
    login hashCompare sign s u1 p1 = Except.error LoginError.wrongCredentials
    ∧ login hashCompare sign s u2 p2 = Except.error LoginError.wrongCredentials
    ∧ login hashCompare sign s u1 p1 = login hashCompare sign s u2 p2 := by
  simp [login, hfound, habsent, hwrong]

/-- C6 (witness): with one stored user alice, a wrong password for alice
and a login for the absent user bob produce the identical error. -/
theorem login_failure_indistinguishable_witness :
    login (fun p h => p == h) (fun a b => a ++ b) c6Store "alice" "wrong"
      = Except.error LoginError.wrongCredentials
    ∧ login (fun p h => p == h) (fun a b => a ++ b) c6Store "bob" "whatever"
      = Except.error LoginError.wrongCredentials :=
  ⟨(login_failure_indistinguishable (fun p h => p == h) (fun a b => a ++ b) c6Store
      "alice" "wrong" "bob" "whatever" c1User rfl (by decide) rfl).1,
   (login_failure_indistinguishable (fun p h => p == h) (fun a b => a ++ b) c6Store
      "alice" "wrong" "bob" "whatever" c1User rfl (by decide) rfl).2.1⟩

/-- C7 (counterexample): with the genre argument set to the empty string,
`allBooks` returns every Book — JavaScript truthiness treats the empty
string as an absent filter — including a Book whose genre list does not
contain that tag, so the claimed membership semantics fails for that set
filter value. -/
theorem allBooks_emptyGenre_counterexample :
    allBooks c7Store none (some "") = [c7Book]
    ∧ c7Book.genres.contains "" = false :=
  ⟨rfl, by decide⟩

/-- C7 (amended): for every store, `allBooks` with neither argument set
returns all Books; with the genre argument set to a non-empty tag it
returns exactly the Books whose genre list contains that exact tag; and
with both arguments set to non-empty strings a Book is returned iff it
matches the author reference filter and contains the genre tag (AND
semantics).  An argument set to the empty string is treated as unset. -/
theorem allBooks_filter_semantics (s : Store) (a g : String) (ha : a ≠ "") (hg : g ≠ "") :
    allBooks s none none = s.books
    ∧ allBooks s none (some g) = s.books.filter (fun b => b.genres.contains g)
    ∧ allBooks s (some a) (some g)
        = s.books.filter (fun b => b.author == a && b.genres.contains g) :=
  ⟨rfl, allBooks_genreFilter s g hg, allBooks_bothFilters s a g ha hg⟩

/-- C7 (amended, witness): the combined non-empty filters return exactly
the matching Book of the concrete store. -/
theorem allBooks_filter_semantics_witness :
    allBooks c7Store (some "oidA") (some "scifi") = [c7Book] := by
  have h := (allBooks_filter_semantics c7Store "oidA" "scifi" (by decide) (by decide)).2.2
  rw [h]
  rfl

/-- C8: for every `editAuthor` call by an authenticated caller with a
name matching no Author record, the call returns a null result rather
than raising an error, and the store is unchanged. -/
theorem editAuthor_noSuchAuthor (s : Store) (u : User) (name : String) (setBornTo : Int)
    (h : s.authors.find? (fun a => a.name == name) = none) :
    editAuthor s (some u) name setBornTo = { result := Except.ok none, store := s } := by
  simp [editAuthor, h]

/-- C8 (witness): editing the absent author Unknown returns null and
leaves the concrete store untouched. -/
theorem editAuthor_noSuchAuthor_witness :
    editAuthor c3Store (some c1User) "Unknown" 1900
      = { result := Except.ok none, store := c3Store } :=
  editAuthor_noSuchAuthor c3Store c1User "Unknown" 1900 (by decide)

/-- C9: for every `addBook` call, a subscriber registered before the call
(having seen 0 events of the call's trace) receives exactly one
book-added event carrying the newly created Book iff the call succeeds;
on every failure path — unauthenticated, validation failure, or store
failure — no event is published; and a subscriber registered after
publication (having already seen the whole trace) receives nothing. -/
theorem addBook_publishes_iff_success (s : Store) (ctx : Option User)
    (args : AddBookArgs) (sf : Option String) :
    (∀ b : Book, (addBook s ctx args sf).result = Except.ok b →
        deliveredTo 0 (addBook s ctx args sf).events = [Event.bookAdded b])
    ∧ (∀ e : AddBookError, (addBook s ctx args sf).result = Except.error e →
        (addBook s ctx args sf).events = [])
    ∧ deliveredTo (addBook s ctx args sf).events.length (addBook s ctx args sf).events
        = [] := by
  have hcases :
      (∃ b, (addBook s ctx args sf).result = Except.ok b ∧
            (addBook s ctx args sf).events = [Event.bookAdded b])
    ∨ ((∃ e, (addBook s ctx args sf).result = Except.error e) ∧
            (addBook s ctx args sf).events = []) := by
    cases ctx with
    | none => exact Or.inr ⟨⟨_, rfl⟩, rfl⟩
    | some u =>
      by_cases h1 : args.title.length < 2
      · refine Or.inr ⟨⟨AddBookError.titleTooShort args, ?_⟩, ?_⟩ <;> simp [addBook, h1]
      · by_cases h2 : args.author.length < 4
        · refine Or.inr ⟨⟨AddBookError.authorNameTooShort args, ?_⟩, ?_⟩ <;>
            simp [addBook, h1, h2]
        · cases hf : s.authors.find? (fun a => a.name == args.author) with
          | none =>
            cases sf with
            | none =>
              refine Or.inl ⟨{ oid := mkId (s.nextId + 1), title := args.title,
                               published := args.published, author := mkId s.nextId,
                               genres := args.genres }, ?_, ?_⟩ <;>
                simp [addBook, h1, h2, hf, addBookSave]
            | some msg =>
              refine Or.inr ⟨⟨AddBookError.bookSaveFailed msg args, ?_⟩, ?_⟩ <;>
                simp [addBook, h1, h2, hf, addBookSave]
          | some a =>
            cases sf with
            | none =>
              refine Or.inl ⟨{ oid := mkId s.nextId, title := args.title,
                               published := args.published, author := a.oid,
                               genres := args.genres }, ?_, ?_⟩ <;>
                simp [addBook, h1, h2, hf, addBookSave]
            | some msg =>
              refine Or.inr ⟨⟨AddBookError.bookSaveFailed msg args, ?_⟩, ?_⟩ <;>
                simp [addBook, h1, h2, hf, addBookSave]
  obtain ⟨b0, hres, hev⟩ | ⟨⟨e0, hres⟩, hev⟩ := hcases
  · refine ⟨?_, ?_, ?_⟩
    · intro b hb
      rw [hres] at hb
      injection hb with h
      rw [hev, h]
      rfl
    · intro e he
      rw [hres] at he
      exact absurd he (by simp)
    · rw [hev]
      rfl
  · refine ⟨?_, ?_, ?_⟩
    · intro b hb
      rw [hres] at hb
      exact absurd hb (by simp)
    · intro e _
      exact hev
    · rw [hev]
      rfl

/-- C9 (witness): for the successful concrete Dune call, a subscriber
registered before the call receives exactly the one book-added event
carrying the created Book, and a subscriber registered after the
publication receives nothing. -/
theorem addBook_publishes_iff_success_witness :
    deliveredTo 0 (addBook c1Store (some c1User) c1Args none).events
      = [Event.bookAdded { oid := "oid1", title := "Dune", published := 1965,
                           author := "oid0", genres := ["scifi"] }]
    ∧ deliveredTo (addBook c1Store (some c1User) c1Args none).events.length
        (addBook c1Store (some c1User) c1Args none).events = [] :=
  ⟨(addBook_publishes_iff_success c1Store (some c1User) c1Args none).1 _ rfl,
   (addBook_publishes_iff_success c1Store (some c1User) c1Args none).2.2⟩

/-- C10: for every store state and every value of the optional `name`
argument, the bookCount query returns the total number of Book records;
the argument has no effect on the result — it is never a per-author
count. -/
theorem bookCountQuery_ignores_name (s : Store) (n1 n2 : Option String) :
    bookCountQuery s n1 = s.books.length ∧ bookCountQuery s n1 = bookCountQuery s n2 :=
  ⟨rfl, rfl⟩
